import Mathlib

/-!
Shallow embedding of `src/energy_meter.py` (class `EnergyMeter`).

Numeric values (timestamps in epoch seconds, durations in microseconds,
energies in joules, power in watts) are modelled as rationals `ℚ`; the
Python float literal `1e-6` becomes `(1 : ℚ) / 1000000`.  Record streams
read from the csv files are modelled as lists of rows; a file argument is
`Option (List _)`, `none` standing for a missing file
(`pandas.read_csv` raising `FileNotFoundError`).  Python exceptions are
modelled with `Except PyError`.
-/

namespace EnergyMeterModel

/-- Errors a call can raise.  `sessionStateError` is listed so that
specification-level statements about it can be written; the source never
defines or raises it. -/
inductive PyError where
  | attributeError
  | fileNotFound
  | sessionStateError
  deriving DecidableEq, Repr

/-- The result bundle held by `pyRAPL.Measurement.result`:
`timestamp` (epoch seconds), `duration` (microseconds), `pkg` and `dram`
(per-socket energy deltas in microjoules). -/
structure RaplResult where
  timestamp : ℚ
  duration  : ℚ
  pkg       : List ℚ
  dram      : List ℚ
  deriving DecidableEq, Repr

/-- Phase of a `pyRAPL.Measurement`: after `.begin()` it is running; after
`.end()` it carries the captured result bundle. -/
inductive MeasPhase where
  | started
  | ended (r : RaplResult)
  deriving DecidableEq, Repr

/-- A `pyRAPL.Measurement` object: the label passed at construction and the
current phase. -/
structure Measurement where
  label : String
  phase : MeasPhase
  deriving DecidableEq, Repr

/-- The `EnergyMeter` instance state set up by `__init__`
(src/energy_meter.py lines 47-70). -/
structure EnergyMeter where
  disk_avg_speed    : ℚ
  disk_active_power : ℚ
  disk_idle_power   : ℚ
  label             : String
  meter             : Option Measurement
  deriving DecidableEq, Repr

/-- `__init__(disk_avg_speed, disk_active_power, disk_idle_power, label=None)`:
stores the three disk constants, sets `self.meter = None`, and sets
`self.label = label if label else "Meter"` (Python truthiness: `None` and
the empty string are falsy). -/
def EnergyMeter.init (sp ap ip : ℚ) (label : Option String) : EnergyMeter :=
  { disk_avg_speed := sp
    disk_active_power := ap
    disk_idle_power := ip
    label := match label with
             | some s => if s ≠ "" then s else "Meter"
             | none => "Meter"
    meter := none }

/-- `begin()` (lines 72-78): unconditionally replaces `self.meter` with a
fresh `pyRAPL.Measurement(self.label)` and starts it.  There is no guard
against a session already being open, and no exception is raised. -/
def beginMeter (st : EnergyMeter) : Except PyError EnergyMeter :=
  .ok { st with meter := some { label := st.label, phase := .started } }

/-- `end()` (lines 80-86): calls `self.meter.end()`.  When `self.meter` is
still `None` (no `begin()` ever ran) Python raises `AttributeError`;
otherwise the measurement is closed, capturing the result bundle `r`
delivered by pyRAPL at this instant. -/
def endMeter (st : EnergyMeter) (r : RaplResult) : Except PyError EnergyMeter :=
  match st.meter with
  | none => .error .attributeError
  | some m => .ok { st with meter := some { m with phase := .ended r } }

/-- The result bundle of a closed session, when there is one. -/
def meterResult (st : EnergyMeter) : Option RaplResult :=
  match st.meter with
  | some { phase := .ended r, .. } => some r
  | _ => none

/-- `meter_start = datetime.fromtimestamp(self.meter.result.timestamp)`
(epoch seconds). -/
def meterStart (r : RaplResult) : ℚ := r.timestamp

/-- The session duration in seconds:
`self.meter.result.duration * 1e-6` (pyRAPL reports microseconds). -/
def durationSec (r : RaplResult) : ℚ := r.duration * (1 / 1000000)

/-- `meter_end = datetime.fromtimestamp(timestamp + duration*1e-6)`. -/
def meterEnd (r : RaplResult) : ℚ := r.timestamp + r.duration * (1 / 1000000)

/-- Substring containment, the model of Python `str.contains(pat)` /
`"pat" in s`. -/
def strContains (s pat : String) : Bool :=
  (List.range (s.toList.length + 1)).any fun i =>
    (s.toList.drop i).take pat.toList.length = pat.toList

/-- One row of the disk csv (`disk_stats.csv`, semicolon separated, first
line skipped).  The pandas header misalignment the source's TODO notes
means the column named `ByteSize` holds the command string and the column
named `Operation` holds the byte count; `ts` is the row index converted
to a datetime. -/
structure DiskRow where
  ts        : ℚ
  byteSize  : String
  operation : ℚ
  deriving DecidableEq, Repr

/-- `df[(df.index >= meter_start) & (df.index < meter_end)]`
(line 103). -/
def disk_filtered (r : RaplResult) (rows : List DiskRow) : List DiskRow :=
  rows.filter fun row => decide (meterStart r ≤ row.ts) && decide (row.ts < meterEnd r)

/-- `filtered_df[filtered_df["ByteSize"].str.contains("python")]["Operation"].sum()`
(line 105). -/
def tot_bytes (r : RaplResult) (rows : List DiskRow) : ℚ :=
  (((disk_filtered r rows).filter fun row => strContains row.byteSize "python").map
    (fun row => row.operation)).sum

/-- Body of `get_total_jules_disk` (lines 105-114) for an already parsed
record list and a closed session with result bundle `r`:
`disk_active_time = tot_bytes / disk_avg_speed`,
`disk_idle_time = duration*1e-6 - disk_active_time` (no clamping),
returns `disk_active_time * disk_active_power + disk_idle_time * disk_idle_power`. -/
def get_total_jules_disk (st : EnergyMeter) (r : RaplResult) (rows : List DiskRow) : ℚ :=
  let disk_active_time := tot_bytes r rows / st.disk_avg_speed
  let disk_idle_time := durationSec r - disk_active_time
  disk_active_time * st.disk_active_power + disk_idle_time * st.disk_idle_power

/-- `get_total_jules_disk(filename)` including the `pd.read_csv` call: a
missing file raises (modelled by `none ↦ .error .fileNotFound`). -/
def get_total_jules_disk_file (st : EnergyMeter) (r : RaplResult)
    (file : Option (List DiskRow)) : Except PyError ℚ :=
  match file with
  | none => .error .fileNotFound
  | some rows => .ok (get_total_jules_disk st r rows)

/-- One row of the GPU csv (`gpu_stats.csv`): a `timestamp` column and a
`power_usage(W)` column. -/
structure GpuRow where
  timestamp : ℚ
  power     : ℚ
  deriving DecidableEq, Repr

/-- `df[(df.timestamp >= meter_start) & (df.timestamp < meter_end)]`
(line 146). -/
def gpu_filtered (r : RaplResult) (rows : List GpuRow) : List GpuRow :=
  rows.filter fun row =>
    decide (meterStart r ≤ row.timestamp) && decide (row.timestamp < meterEnd r)

/-- pandas `Series.mean()`: arithmetic mean of the column, `NaN` on an
empty series (modelled as `none`). -/
def seriesMean (xs : List ℚ) : Option ℚ :=
  if xs = [] then none else some (xs.sum / (xs.length : ℚ))

/-- Body of `get_total_jules_gpu` (lines 141-147):
`mean_p = filtered["power_usage(W)"].mean()`, returns
`mean_p * duration * 1e-6`.  A `NaN` mean propagates through the
multiplication, so `none` stays `none`. -/
def get_total_jules_gpu (r : RaplResult) (rows : List GpuRow) : Option ℚ :=
  (seriesMean ((gpu_filtered r rows).map (fun row => row.power))).map
    (fun mean_p => mean_p * r.duration * (1 / 1000000))

/-- `get_total_jules_cpu` (lines 116-121): `np.array(result.pkg) * 1e-6`. -/
def get_total_jules_cpu (r : RaplResult) : List ℚ :=
  r.pkg.map (fun x => x * (1 / 1000000))

/-- `get_total_jules_dram` (lines 124-129): `np.array(result.dram) * 1e-6`. -/
def get_total_jules_dram (r : RaplResult) : List ℚ :=
  r.dram.map (fun x => x * (1 / 1000000))

/-- A value stored in the report dictionary: the cpu and dram entries are
numpy arrays, the gpu and disk entries scalars. -/
inductive JVal where
  | num (q : ℚ)
  | arr (l : List ℚ)
  deriving DecidableEq, Repr

/-- `np.sum` over a report value: sums an array, returns a scalar
unchanged. -/
def npSum : JVal → ℚ
  | .num q => q
  | .arr l => l.sum

/-- Dictionary lookup (`data.get(key)`), over the association-list model of
the Python dict. -/
def dictGet (d : List (String × JVal)) (k : String) : Option JVal :=
  (d.find? fun p => p.1 == k).map fun p => p.2

/-- Lines 158-159: `if np.isnan(gpu): gpu = 0` — the aggregator's zero
substitution for an undefined (`NaN`) gpu mean. -/
def gpuZeroFallback : Option ℚ → ℚ
  | none => 0
  | some g => g

/-- `get_total_jules_per_component(foldername)` (lines 149-166): computes
cpu and dram from the counter snapshot, reads `gpu_stats.csv` (a missing
file raises and aborts the whole call), substitutes `0` for a `NaN` gpu
value, reads `disk_stats.csv` (likewise fatal when missing), and returns
the dict with exactly the keys `cpu`, `dram`, `gpu`, `disk`. -/
def get_total_jules_per_component (st : EnergyMeter) (r : RaplResult)
    (gpuFile : Option (List GpuRow)) (diskFile : Option (List DiskRow)) :
    Except PyError (List (String × JVal)) :=
  let cpu := get_total_jules_cpu r
  let dram := get_total_jules_dram r
  match gpuFile with
  | none => .error .fileNotFound
  | some grows =>
    let gpu : ℚ := gpuZeroFallback (get_total_jules_gpu r grows)
    match diskFile with
    | none => .error .fileNotFound
    | some drows =>
      let disk := get_total_jules_disk st r drows
      .ok [("cpu", .arr cpu), ("dram", .arr dram), ("gpu", .num gpu), ("disk", .num disk)]

/-- The data assembled by `plot_total_jules_per_component` (lines 168-176)
before rendering: the per-component dict extended with
`data["total"] = np.sum(data.get("cpu")) + np.sum(data.get("dram"))
+ data.get("disk") + data.get("gpu")` (the disk and gpu entries are
scalars, so `npSum` on them is the bare value). -/
def plot_total_jules_per_component (st : EnergyMeter) (r : RaplResult)
    (gpuFile : Option (List GpuRow)) (diskFile : Option (List DiskRow)) :
    Except PyError (List (String × JVal)) :=
  (get_total_jules_per_component st r gpuFile diskFile).map fun data =>
    let total := npSum ((dictGet data "cpu").getD (.num 0))
               + npSum ((dictGet data "dram").getD (.num 0))
               + npSum ((dictGet data "disk").getD (.num 0))
               + npSum ((dictGet data "gpu").getD (.num 0))
    data ++ [("total", .num total)]

/-! Concrete objects used by witnesses and counterexamples. -/

/-- A meter configured with `disk_avg_speed = 1` byte/s,
`disk_active_power = 1` W, `disk_idle_power = 10` W, default label. -/
def st0 : EnergyMeter := EnergyMeter.init 1 1 10 none

/-- A counter snapshot: session start at epoch `0`, duration `10^6` µs
(one second), one cpu socket reading of `10^6` µJ and one dram reading of
`2·10^6` µJ. -/
def r0 : RaplResult := { timestamp := 0, duration := 1000000, pkg := [1000000], dram := [2000000] }

/-- A disk log row inside the window of `r0`, tagged as a python process,
reporting 2 bytes transferred. -/
def drow : DiskRow := { ts := 0, byteSize := "python3", operation := 2 }

/-- `st0` right after `begin()`: an open session. -/
def stOpen : EnergyMeter :=
  { st0 with meter := some { label := "Meter", phase := MeasPhase.started } }

/-- `st0` after `begin()` and `end()` delivering the snapshot `r0`: a
closed session. -/
def stClosed : EnergyMeter :=
  { st0 with meter := some { label := "Meter", phase := MeasPhase.ended r0 } }

/-- The report `get_total_jules_per_component` produces from `stClosed`,
`r0` and two present-but-empty log files: disk idles for the whole one
second at 10 W. -/
def report0 : List (String × JVal) :=
  [("cpu", .arr [1]), ("dram", .arr [2]), ("gpu", .num 0), ("disk", .num 10)]

/-! Theorems about the claims. -/

/-- C1: for every valid (begun and ended) session, the total entry of the
aggregated report equals the scalar sum of the cpu sequence, plus the
scalar sum of the dram sequence, plus the gpu value, plus the disk value. -/
theorem report_total_eq_component_sum (st : EnergyMeter) (r : RaplResult)
    (h : meterResult st = some r) (grows : List GpuRow) (drows : List DiskRow) :
    ∃ d, plot_total_jules_per_component st r (some grows) (some drows) = .ok d ∧
      dictGet d "total" = some (.num
        ((get_total_jules_cpu r).sum + (get_total_jules_dram r).sum
          + gpuZeroFallback (get_total_jules_gpu r grows)
          + get_total_jules_disk st r drows)) := by
  refine ⟨_, rfl, ?_⟩
  simp [plot_total_jules_per_component, get_total_jules_per_component, dictGet,
    List.find?, npSum]
  ring

/-- Witness for C1 at the concrete closed session `stClosed` with empty
log files. -/
theorem report_total_eq_component_sum_witness :
    meterResult stClosed = some r0 ∧
    ∃ d, plot_total_jules_per_component stClosed r0 (some []) (some []) = .ok d ∧
      dictGet d "total" = some (.num
        ((get_total_jules_cpu r0).sum + (get_total_jules_dram r0).sum
          + gpuZeroFallback (get_total_jules_gpu r0 [])
          + get_total_jules_disk stClosed r0 [])) :=
  ⟨rfl, report_total_eq_component_sum stClosed r0 rfl [] []⟩

/-- C2: for both record streams, the windowed extraction keeps exactly the
rows whose timestamp `t` satisfies `start ≤ t < start + duration`; in
particular a row at exactly `start` is kept and a row at exactly
`start + duration` is dropped. -/
theorem windowed_extraction_halfopen (r : RaplResult)
    (grows : List GpuRow) (drows : List DiskRow) (g : GpuRow) (d : DiskRow) :
    (g ∈ gpu_filtered r grows ↔
      g ∈ grows ∧ meterStart r ≤ g.timestamp ∧ g.timestamp < meterStart r + durationSec r) ∧
    (d ∈ disk_filtered r drows ↔
      d ∈ drows ∧ meterStart r ≤ d.ts ∧ d.ts < meterStart r + durationSec r) := by
  constructor
  · simp [gpu_filtered, List.mem_filter, meterStart, meterEnd, durationSec, and_assoc]
  · simp [disk_filtered, List.mem_filter, meterStart, meterEnd, durationSec, and_assoc]

/-- C4: when the filtered accelerator window is empty the gpu estimator
signals an undefined mean (`none`, the model of `NaN`), and the aggregated
report substitutes the defined value `0` for the gpu component without
failing. -/
theorem gpu_empty_window_reports_zero (st : EnergyMeter) (r : RaplResult)
    (grows : List GpuRow) (drows : List DiskRow) (h : gpu_filtered r grows = []) :
    get_total_jules_gpu r grows = none ∧
    ∃ d, get_total_jules_per_component st r (some grows) (some drows) = .ok d ∧
      dictGet d "gpu" = some (.num 0) := by
  have hg : get_total_jules_gpu r grows = none := by
    simp [get_total_jules_gpu, seriesMean, h]
  refine ⟨hg, ?_⟩
  refine ⟨_, rfl, ?_⟩
  simp [get_total_jules_per_component, hg, gpuZeroFallback, dictGet, List.find?]

/-- Witness for C4: session `r0` with an empty accelerator log and an
empty disk log. -/
theorem gpu_empty_window_reports_zero_witness :
    gpu_filtered r0 [] = [] ∧
    (get_total_jules_gpu r0 [] = none ∧
      ∃ d, get_total_jules_per_component st0 r0 (some []) (some []) = .ok d ∧
        dictGet d "gpu" = some (.num 0)) :=
  ⟨rfl, gpu_empty_window_reports_zero st0 r0 [] [] rfl⟩

/-- C8: when `active_time = tot_bytes / disk_avg_speed` does not exceed the
session duration, the disk estimator returns exactly
`active_time·P_active + (duration − active_time)·P_idle`; with zero bytes it
returns `duration·P_idle`. -/
theorem disk_energy_formula (st : EnergyMeter) (r : RaplResult) (rows : List DiskRow)
    (h : tot_bytes r rows / st.disk_avg_speed ≤ durationSec r) :
    get_total_jules_disk st r rows =
      tot_bytes r rows / st.disk_avg_speed * st.disk_active_power
        + (durationSec r - tot_bytes r rows / st.disk_avg_speed) * st.disk_idle_power
    ∧ (tot_bytes r rows = 0 →
        get_total_jules_disk st r rows = durationSec r * st.disk_idle_power) := by
  refine ⟨rfl, fun h0 => ?_⟩
  simp [get_total_jules_disk, h0]

/-- Witness for C8: `r0` with an empty disk log on `st0`. -/
theorem disk_energy_formula_witness :
    tot_bytes r0 [] / st0.disk_avg_speed ≤ durationSec r0 ∧
    (get_total_jules_disk st0 r0 [] =
      tot_bytes r0 [] / st0.disk_avg_speed * st0.disk_active_power
        + (durationSec r0 - tot_bytes r0 [] / st0.disk_avg_speed) * st0.disk_idle_power
    ∧ (tot_bytes r0 [] = 0 →
        get_total_jules_disk st0 r0 [] = durationSec r0 * st0.disk_idle_power)) :=
  ⟨by norm_num [tot_bytes, disk_filtered, durationSec, st0, r0, EnergyMeter.init],
   disk_energy_formula st0 r0 []
     (by norm_num [tot_bytes, disk_filtered, durationSec, st0, r0, EnergyMeter.init])⟩

/-- C3 counterexample: on `st0`, `r0` and one python-tagged row of 2 bytes,
`active_time = 2 s` exceeds the 1 s duration, yet the estimator performs no
clamp and raises no flag: it returns `2·1 + (1−2)·10 = −8` J, a negative
energy derived from the negative idle time. -/
theorem disk_no_clamp_counterexample :
    durationSec r0 < tot_bytes r0 [drow] / st0.disk_avg_speed ∧
    get_total_jules_disk st0 r0 [drow] = -8 ∧
    get_total_jules_disk st0 r0 [drow] < 0 := by
  refine ⟨?_, ?_, ?_⟩ <;>
    norm_num [get_total_jules_disk, tot_bytes, disk_filtered, durationSec,
      meterStart, meterEnd, st0, r0, drow, EnergyMeter.init, List.filter,
      show strContains "python3" "python" = true from by decide]

/-- C3 amended: when `active_time` exceeds the duration, the disk estimator
neither clamps the idle time nor flags any inconsistency — it returns the
formula evaluated with the negative idle time. -/
theorem disk_negative_idle_unclamped (st : EnergyMeter) (r : RaplResult)
    (rows : List DiskRow)
    (h : durationSec r < tot_bytes r rows / st.disk_avg_speed) :
    durationSec r - tot_bytes r rows / st.disk_avg_speed < 0 ∧
    get_total_jules_disk st r rows =
      tot_bytes r rows / st.disk_avg_speed * st.disk_active_power
        + (durationSec r - tot_bytes r rows / st.disk_avg_speed) * st.disk_idle_power :=
  ⟨by linarith, rfl⟩

/-- Witness for amended C3 at `st0`, `r0`, `[drow]`. -/
theorem disk_negative_idle_unclamped_witness :
    durationSec r0 < tot_bytes r0 [drow] / st0.disk_avg_speed ∧
    (durationSec r0 - tot_bytes r0 [drow] / st0.disk_avg_speed < 0 ∧
    get_total_jules_disk st0 r0 [drow] =
      tot_bytes r0 [drow] / st0.disk_avg_speed * st0.disk_active_power
        + (durationSec r0 - tot_bytes r0 [drow] / st0.disk_avg_speed) * st0.disk_idle_power) :=
  ⟨by norm_num [tot_bytes, disk_filtered, durationSec, meterStart, meterEnd,
      st0, r0, drow, EnergyMeter.init, List.filter,
      show strContains "python3" "python" = true from by decide],
   disk_negative_idle_unclamped st0 r0 [drow]
     (by norm_num [tot_bytes, disk_filtered, durationSec, meterStart, meterEnd,
        st0, r0, drow, EnergyMeter.init, List.filter,
        show strContains "python3" "python" = true from by decide])⟩

/-- C5 counterexample: a second `begin()` on an already open session does
not fail with any error; it silently replaces the measurement with a fresh
started one. -/
theorem begin_twice_counterexample :
    beginMeter st0 = .ok stOpen ∧
    beginMeter stOpen = .ok stOpen ∧
    beginMeter stOpen ≠ .error .sessionStateError :=
  ⟨rfl, rfl, fun h => Except.noConfusion h⟩

/-- C5 amended: `begin()` while a session is already open never fails; it
silently starts a new window by overwriting `self.meter` with a fresh
`Measurement`. -/
theorem begin_while_open_silently_restarts (st : EnergyMeter)
    (h : st.meter.isSome = true) :
    beginMeter st =
      .ok { st with meter := some { label := st.label, phase := .started } } :=
  rfl

/-- Witness for amended C5 at the open state `stOpen`. -/
theorem begin_while_open_silently_restarts_witness :
    stOpen.meter.isSome = true ∧
    beginMeter stOpen =
      .ok { stOpen with meter := some { label := stOpen.label, phase := .started } } :=
  ⟨rfl, begin_while_open_silently_restarts stOpen rfl⟩

/-- C6 counterexample: the report returned by
`get_total_jules_per_component` on the concrete session `st0`, `r0` with
two present-but-empty log files is `report0`, which has no `total` key. -/
theorem report_missing_total_counterexample :
    get_total_jules_per_component st0 r0 (some []) (some []) = .ok report0 ∧
    dictGet report0 "total" = none := by
  refine ⟨?_, rfl⟩
  norm_num [get_total_jules_per_component, get_total_jules_gpu, gpu_filtered,
    seriesMean, gpuZeroFallback, get_total_jules_disk, tot_bytes, disk_filtered,
    durationSec, get_total_jules_cpu, get_total_jules_dram, st0, r0,
    EnergyMeter.init, report0, List.filter]

/-- C6 amended: the aggregation report contains exactly the four keys
`cpu`, `dram`, `gpu`, `disk`, each mapped to a defined value; the `total`
key is present only in the data assembled by the plotting routine, which
carries all five keys. -/
theorem report_keys (st : EnergyMeter) (r : RaplResult)
    (grows : List GpuRow) (drows : List DiskRow) :
    ∃ d, get_total_jules_per_component st r (some grows) (some drows) = .ok d ∧
      d.map Prod.fst = ["cpu", "dram", "gpu", "disk"] ∧
      ∃ p, plot_total_jules_per_component st r (some grows) (some drows) = .ok p ∧
        p.map Prod.fst = ["cpu", "dram", "gpu", "disk", "total"] :=
  ⟨_, rfl, rfl, _, rfl, rfl⟩

/-- C7 counterexample: with the accelerator log file missing and every
other source fine, report generation aborts entirely with the file error
instead of returning the remaining components. -/
theorem missing_gpu_file_aborts_report :
    get_total_jules_per_component st0 r0 none (some []) = .error .fileNotFound :=
  rfl

/-- C7 amended: empty time-series windows degrade gracefully per component
(gpu becomes `0`, disk falls back to the pure idle model), but a missing
log file raises out of `get_total_jules_per_component` and aborts the
whole report, not only that component. -/
theorem empty_window_graceful_missing_file_fatal (st : EnergyMeter) (r : RaplResult)
    (grows : List GpuRow) (drows : List DiskRow)
    (hg : gpu_filtered r grows = []) (hd : disk_filtered r drows = []) :
    get_total_jules_per_component st r none (some drows) = .error .fileNotFound ∧
    get_total_jules_per_component st r (some grows) none = .error .fileNotFound ∧
    ∃ d, get_total_jules_per_component st r (some grows) (some drows) = .ok d ∧
      dictGet d "gpu" = some (.num 0) ∧
      dictGet d "disk" = some (.num (durationSec r * st.disk_idle_power)) := by
  refine ⟨rfl, rfl, _, rfl, ?_, ?_⟩
  · simp [get_total_jules_per_component, get_total_jules_gpu, seriesMean, hg,
      gpuZeroFallback, dictGet, List.find?]
  · simp [get_total_jules_per_component, get_total_jules_disk, tot_bytes, hd,
      dictGet, List.find?]

/-- Witness for amended C7 at `st0`, `r0` with empty log files. -/
theorem empty_window_graceful_missing_file_fatal_witness :
    gpu_filtered r0 [] = [] ∧ disk_filtered r0 [] = [] ∧
    (get_total_jules_per_component st0 r0 none (some []) = .error .fileNotFound ∧
    get_total_jules_per_component st0 r0 (some []) none = .error .fileNotFound ∧
    ∃ d, get_total_jules_per_component st0 r0 (some []) (some []) = .ok d ∧
      dictGet d "gpu" = some (.num 0) ∧
      dictGet d "disk" = some (.num (durationSec r0 * st0.disk_idle_power))) :=
  ⟨rfl, rfl, empty_window_graceful_missing_file_fatal st0 r0 [] [] rfl rfl⟩

/-- C9 counterexample: `end()` on a fresh instance (no `begin()` ever) does
fail, but with `AttributeError` (`self.meter` is `None`), not with a
`SessionStateError`. -/
theorem end_without_begin_counterexample :
    endMeter st0 r0 = .error .attributeError ∧
    endMeter st0 r0 ≠ .error .sessionStateError :=
  ⟨rfl, fun h => by injection h with h'; exact PyError.noConfusion h'⟩

/-- C9 amended: on any instance whose meter is still `None` (no session
ever begun), `end()` always fails, raising `AttributeError`; no
`SessionStateError` exists in the code. -/
theorem end_without_begin_attribute_error (st : EnergyMeter) (r : RaplResult)
    (h : st.meter = none) :
    endMeter st r = .error .attributeError := by
  simp [endMeter, h]

/-- Witness for amended C9 at the fresh instance `st0`. -/
theorem end_without_begin_attribute_error_witness :
    st0.meter = none ∧ endMeter st0 r0 = .error .attributeError :=
  ⟨rfl, end_without_begin_attribute_error st0 r0 rfl⟩

/-- C10: constructing a meter with label `None` or the empty string (any
falsy value of the optional string argument) stores the label `"Meter"`;
a non-empty label is stored unchanged and is the label of the
`Measurement` that `begin()` creates. -/
theorem label_defaulting (sp ap ip : ℚ) (s : String) (h : s ≠ "") :
    (EnergyMeter.init sp ap ip none).label = "Meter" ∧
    (EnergyMeter.init sp ap ip (some "")).label = "Meter" ∧
    (EnergyMeter.init sp ap ip (some s)).label = s ∧
    beginMeter (EnergyMeter.init sp ap ip (some s)) =
      .ok { EnergyMeter.init sp ap ip (some s) with
            meter := some { label := s, phase := .started } } := by
  refine ⟨rfl, rfl, ?_, ?_⟩
  · simp [EnergyMeter.init, h]
  · simp [beginMeter, EnergyMeter.init, h]

/-- Witness for C10 with the truthy label `"train"`. -/
theorem label_defaulting_witness :
    ("train" : String) ≠ "" ∧
    ((EnergyMeter.init 1 1 10 none).label = "Meter" ∧
    (EnergyMeter.init 1 1 10 (some "")).label = "Meter" ∧
    (EnergyMeter.init 1 1 10 (some "train")).label = "train" ∧
    beginMeter (EnergyMeter.init 1 1 10 (some "train")) =
      .ok { EnergyMeter.init 1 1 10 (some "train") with
            meter := some { label := "train", phase := .started } }) :=
  ⟨by decide, label_defaulting 1 1 10 "train" (by decide)⟩

end EnergyMeterModel
